import Mathlib

/-!
Shallow embedding of the application lifecycle supervisor
(`rootfs/opt/app-manager/app-manager.py`).

The Python program performs I/O: it reads PID files, sends signals,
runs external scripts, and issues TCP/HTTP probes.  We embed it by
making the observed environment explicit:

* `SysState` gives the contents of each application's PID file and the
  state of every process id (dead, alive-and-signalable, or alive but
  not signalable — the latter makes `os.kill(pid, 0)` raise
  `PermissionError`).
* Script execution and probe outcomes are supplied as functions in a
  `World` record; the embedded code consumes them exactly where the
  Python code performs the corresponding call.
* A Python function that can raise an exception that its callers do not
  catch is embedded with result type `Except Unit α`.
* Side effects (running a script, sending a signal, sleeping) are
  returned as an explicit `Event` trace.
-/

namespace AppManager

/-- State of one process id, as seen by `os.kill(pid, 0)`:
`dead` raises `ProcessLookupError`, `aliveOk` succeeds,
`aliveNoPerm` raises `PermissionError`. -/
inductive ProcState where
  | dead
  | aliveOk
  | aliveNoPerm
deriving DecidableEq, Repr

/-- Error raised by `os.kill`. -/
inductive KillErr where
  | noSuchProcess
  | permissionDenied
deriving DecidableEq, Repr

/-- Observable operating-system state: PID-file contents per application
name (`/run/app/<name>.pid`), and the state of each process id. -/
structure SysState where
  pidFiles : String → Option String
  procOf : Int → ProcState

/-- `os.kill(pid, sig)` against a given system state. -/
def os_kill (s : SysState) (pid : Int) : Except KillErr Unit :=
  match s.procOf pid with
  | .dead => .error .noSuchProcess
  | .aliveOk => .ok ()
  | .aliveNoPerm => .error .permissionDenied

/-- Strip leading and trailing whitespace (Python `str.strip()`). -/
def charsTrim (l : List Char) : List Char :=
  ((l.dropWhile Char.isWhitespace).reverse.dropWhile Char.isWhitespace).reverse

/-- Digit-string parser: `some n` when the list is nonempty and all
digits (the accepting core of Python `int`). -/
def parseNatDigits (t : List Char) : Option Nat :=
  if t.isEmpty then none
  else if t.all Char.isDigit then
    some (t.foldl (fun n c => n * 10 + (c.toNat - 48)) 0)
  else none

/-- Python `int(s.strip())`: strip surrounding whitespace, accept an
optional sign followed by digits; `none` models `ValueError`. -/
def parsePid (s : String) : Option Int :=
  match charsTrim s.data with
  | '-' :: rest => (parseNatDigits rest).map (fun n => -(n : Int))
  | '+' :: rest => (parseNatDigits rest).map (fun n => (n : Int))
  | t => (parseNatDigits t).map (fun n => (n : Int))

/-- `get_pid`: read `/run/app/<name>.pid`, parse it, and probe the
process with signal 0.  A missing file, an unparsable content
(`ValueError`), or a dead process (`ProcessLookupError`) are caught and
yield `none`; `PermissionError` from the probe is *not* caught and
propagates (`.error ()`). -/
def get_pid (s : SysState) (app_name : String) : Except Unit (Option Int) :=
  match s.pidFiles app_name with
  | none => .ok none
  | some content =>
    match parsePid content with
    | none => .ok none
    | some pid =>
      match os_kill s pid with
      | .ok _ => .ok (some pid)
      | .error .noSuchProcess => .ok none
      | .error .permissionDenied => .error ()

/-- `is_running`: an app is running iff `get_pid` finds a live PID.
Propagates the uncaught `PermissionError` of `get_pid`. -/
def is_running (s : SysState) (app_name : String) : Except Unit Bool :=
  match get_pid s app_name with
  | .ok p => .ok p.isSome
  | .error e => .error e

/-- A health-result dictionary.  Fields that the Python code may leave
out of the dict are `Option`s defaulting to `none`. -/
structure Health where
  status : String
  response_time_ms : Option Nat := none
  status_code : Option Int := none
  error : Option String := none
  last_check : Option Int := none
deriving DecidableEq, Repr

/-- Per-app `health` configuration dictionary (all keys optional). -/
structure HealthConfig where
  type : Option String := none
  port : Option Int := none
  endpoint : Option String := none
  timeout : Option Int := none
  expected_status : Option Int := none
deriving DecidableEq, Repr

/-- Per-app manifest dictionary (all keys optional). -/
structure Manifest where
  version : Option String := none
  description : Option String := none
  type : Option String := none
  port : Option Int := none
  health : Option HealthConfig := none
deriving DecidableEq, Repr

/-- Runtime record held in the global `apps` dict for one application. -/
structure AppRecord where
  manifest : Manifest
  last_health : Health
  start_time : Option Int
deriving DecidableEq, Repr

/-- Outcome of `urllib.request.urlopen`: a delivered response with a
status code, a `URLError` (which includes connection refused, timeouts,
and `HTTPError` raised for non-success statuses), or any other
exception. -/
inductive HttpOutcome where
  | response (statusCode : Int)
  | urlError (reason : String)
  | raised (msg : String)
deriving DecidableEq, Repr

/-- Outcome of the TCP probe: `connect_ex` returning an error code, or
an exception out of the socket calls. -/
inductive TcpOutcome where
  | connectEx (code : Int)
  | raised (msg : String)
deriving DecidableEq, Repr

/-- Outcome of one `subprocess.run` call: process exit code, a
`TimeoutExpired`, or another exception. -/
inductive ScriptOutcome where
  | exit (code : Int)
  | timedOut
  | raised (msg : String)
deriving DecidableEq, Repr

/-- Log severity used by the script-batch runners. -/
inductive LogLevel where
  | info
  | warning
  | error
deriving DecidableEq, Repr

/-- Externally visible action performed by the embedded code. -/
inductive Event where
  | runScript (path : String) (timeoutSecs : Nat)
  | sendSignal (pid : Int) (sig : String)
  | sleep (secs : Nat)
  | log (lvl : LogLevel) (msg : String)
deriving DecidableEq, Repr

/-- The probe URL built by `check_health_http`:
`http://localhost:<port><endpoint>` with port default 8000 and endpoint
default `/health`. -/
def httpUrl (config : HealthConfig) : String :=
  "http://localhost:" ++ toString (config.port.getD 8000)
    ++ config.endpoint.getD "/health"

/-- `check_health_http`: issue the GET against `httpUrl` and classify
the outcome (expected status default 200).  The elapsed wall-clock time
of the request is environmental and passed in as `elapsedMs`.  The
Python `timeout` config value only bounds `urlopen` and is reflected in
which `HttpOutcome` the environment delivers. -/
def check_health_http (config : HealthConfig) (fetch : String → HttpOutcome)
    (elapsedMs : Nat) : Health :=
  let expected := config.expected_status.getD 200
  match fetch (httpUrl config) with
  | .response status_code =>
    if status_code = expected then
      { status := "healthy", response_time_ms := some elapsedMs,
        status_code := some status_code }
    else
      { status := "unhealthy", response_time_ms := some elapsedMs,
        status_code := some status_code,
        error := some ("Expected " ++ toString expected ++ ", got "
          ++ toString status_code) }
  | .urlError reason => { status := "unhealthy", error := some reason }
  | .raised msg => { status := "unhealthy", error := some msg }

/-- `check_health_tcp`: connect to `localhost:<port>` (port default
8000); `connect_ex` result 0 is healthy with the elapsed time recorded;
any other code is `unhealthy` / "Connection refused"; an exception is
`unhealthy` with its message.  The outcome of the connect attempt on a
given port is environmental (`tcp`). -/
def check_health_tcp (config : HealthConfig) (tcp : Int → TcpOutcome)
    (elapsedMs : Nat) : Health :=
  let port := config.port.getD 8000
  match tcp port with
  | .connectEx code =>
    if code = 0 then
      { status := "healthy", response_time_ms := some elapsedMs }
    else
      { status := "unhealthy", error := some "Connection refused" }
  | .raised msg => { status := "unhealthy", error := some msg }

/-- `check_health_process`: healthy iff `is_running`; `is_running`'s
uncaught `PermissionError` propagates. -/
def check_health_process (s : SysState) (app_name : String) :
    Except Unit Health :=
  match is_running s app_name with
  | .error e => .error e
  | .ok true => .ok { status := "healthy" }
  | .ok false => .ok { status := "unhealthy", error := some "Process not running" }

/-- Everything the supervisor observes from its environment during one
operation, presented as a trace of states and outcomes:

* `reg` is the global `apps` dict (a Python dict keyed by name: an
  association list whose lookup takes the first match);
* `sys` is the system state at entry;
* `sysAfterTerm` is the system state observed after SIGTERM and the 2s
  grace sleep inside `stop_app`'s fallback;
* `sysAfterStop` is the system state observed by `start_app` when it is
  invoked by `restart_app` after the stop and the 1s settle sleep;
* `stopScript`/`startScript` give the per-app script located by the
  `glob` over `shutdown.d`/`startup.d` (the first match, if any);
* `stopScriptOutcome`/`startScriptOutcome` give each script's
  `subprocess.run` outcome;
* `fetch`/`tcp`/`elapsedMs` drive the HTTP and TCP probes;
* `now` is the current clock reading. -/
structure World where
  reg : List (String × AppRecord)
  sys : SysState
  sysAfterTerm : SysState
  sysAfterStop : SysState
  stopScript : String → Option String
  startScript : String → Option String
  stopScriptOutcome : String → ScriptOutcome
  startScriptOutcome : String → ScriptOutcome
  fetch : String → HttpOutcome
  tcp : Int → TcpOutcome
  elapsedMs : Nat
  now : Int

/-- Dict lookup in the `apps` registry (`app_name in apps` /
`apps[app_name]`). -/
def regLookup (reg : List (String × AppRecord)) (app_name : String) :
    Option AppRecord :=
  (reg.find? (fun p => p.1 = app_name)).map (·.2)

/-- `check_app_health`: unknown app is `unknown`; an app whose liveness
probe fails short-circuits to `stopped`; otherwise dispatch on the
declared check type (default `process`).  Propagates the uncaught
`PermissionError` of `is_running`. -/
def check_app_health (w : World) (app_name : String) : Except Unit Health :=
  match regLookup w.reg app_name with
  | none => .ok { status := "unknown", error := some "App not found" }
  | some app =>
    match is_running w.sys app_name with
    | .error e => .error e
    | .ok false => .ok { status := "stopped" }
    | .ok true =>
      let health_config := app.manifest.health.getD {}
      let health_type := health_config.type.getD "process"
      if health_type = "http" then
        .ok (check_health_http health_config w.fetch w.elapsedMs)
      else if health_type = "tcp" then
        .ok (check_health_tcp health_config w.tcp w.elapsedMs)
      else
        check_health_process w.sys app_name

/-- `start_app`: no-op success when already running; otherwise locate
the startup script; run it with a 60s timeout; success is exactly exit
code 0.  `sys` is taken as a parameter (rather than `w.sys`) because
`restart_app` re-invokes `start_app` against a later system state. -/
def start_app (sys : SysState) (w : World) (app_name : String) :
    Except Unit (Bool × List Event) :=
  match is_running sys app_name with
  | .error e => .error e
  | .ok true => .ok (true, [])
  | .ok false =>
    match w.startScript app_name with
    | none => .ok (false, [])
    | some script =>
      let events := [Event.runScript script 60]
      match w.startScriptOutcome script with
      | .exit code => .ok (code = 0, events)
      | .timedOut => .ok (false, events)
      | .raised _ => .ok (false, events)

/-- The PID-kill fallback of `stop_app` (lines after the stop-script
attempt): re-read the PID (uncaught `PermissionError` propagates),
then `if pid:` — Python truthiness, so a recorded PID of 0 (like a
missing one) skips the whole kill block and returns success — and
inside a `try`: SIGTERM, sleep 2s, re-check liveness against the
post-grace state, SIGKILL only if still alive; any exception inside the
`try` returns `False`. -/
def stop_fallback (w : World) (app_name : String) (events : List Event) :
    Except Unit (Bool × List Event) :=
  match get_pid w.sys app_name with
  | .error e => .error e
  | .ok none => .ok (true, events)
  | .ok (some pid) =>
    if pid ≠ 0 then
      let events := events ++ [Event.sendSignal pid "SIGTERM"]
      match os_kill w.sys pid with
      | .error _ => .ok (false, events)
      | .ok _ =>
        let events := events ++ [Event.sleep 2]
        match is_running w.sysAfterTerm app_name with
        | .error _ => .ok (false, events)
        | .ok false => .ok (true, events)
        | .ok true =>
          let events := events ++ [Event.sendSignal pid "SIGKILL"]
          match os_kill w.sysAfterTerm pid with
          | .error _ => .ok (false, events)
          | .ok _ => .ok (true, events)
    else .ok (true, events)

/-- `stop_app`: no-op success if not running; prefer the dedicated stop
script (30s timeout, no exit-code check — any completed run returns
success); if the script raises (e.g. `TimeoutExpired`) fall through to
the signal-based fallback; with no script, go straight to the
fallback. -/
def stop_app (w : World) (app_name : String) :
    Except Unit (Bool × List Event) :=
  match is_running w.sys app_name with
  | .error e => .error e
  | .ok false => .ok (true, [])
  | .ok true =>
    match w.stopScript app_name with
    | some script =>
      match w.stopScriptOutcome script with
      | .exit _ => .ok (true, [Event.runScript script 30])
      | .timedOut => stop_fallback w app_name [Event.runScript script 30]
      | .raised _ => stop_fallback w app_name [Event.runScript script 30]
    | none => stop_fallback w app_name []

/-- `restart_app`: stop, sleep 1s, start (against the post-stop system
state); the returned success is the start's success. -/
def restart_app (w : World) (app_name : String) :
    Except Unit (Bool × List Event) :=
  match stop_app w app_name with
  | .error e => .error e
  | .ok (_, e1) =>
    match start_app w.sysAfterStop w app_name with
    | .error e => .error e
    | .ok (b, e2) => .ok (b, e1 ++ [Event.sleep 1] ++ e2)

/-- Python truthiness of an optional number (`None` and `0` falsy). -/
def truthyInt : Option Int → Bool
  | none => false
  | some n => n ≠ 0

/-- Python truthiness of an optional string (`None` and `""` falsy). -/
def truthyStr : Option String → Bool
  | none => false
  | some s => s ≠ ""

/-- The dict produced by `get_app_status` for a known app. -/
structure AppStatus where
  name : String
  version : String
  description : String
  type : String
  port : Int
  status : String
  pid : Option Int
  health : Health
  uptime_seconds : Int
  uptime_human : String
deriving DecidableEq, Repr

/-- Response of `get_app_status`: either the "App not found" error dict
or the status dict. -/
inductive StatusResp where
  | notFound
  | found (s : AppStatus)
deriving DecidableEq, Repr

/-- Python `divmod`-based uptime formatting in `get_app_status`. -/
def uptimeHuman (uptime_seconds : Int) : String :=
  let hours := Int.fdiv uptime_seconds 3600
  let rem := Int.fmod uptime_seconds 3600
  let mins := Int.fdiv rem 60
  let secs := Int.fmod rem 60
  if hours > 0 then toString hours ++ "h " ++ toString mins ++ "m"
  else if mins > 0 then toString mins ++ "m " ++ toString secs ++ "s"
  else toString secs ++ "s"

/-- `get_app_status`: unknown name yields the error dict (before any
probe); otherwise read the PID (uncaught `PermissionError`
propagates), compute uptime only when running with a truthy
`start_time`, and assemble the summary dict. -/
def get_app_status (w : World) (app_name : String) :
    Except Unit StatusResp :=
  match regLookup w.reg app_name with
  | none => .ok .notFound
  | some app =>
    match get_pid w.sys app_name with
    | .error e => .error e
    | .ok pid =>
      let manifest := app.manifest
      let isRun := pid.isSome
      let uptime_seconds : Int :=
        if isRun ∧ truthyInt app.start_time then
          w.now - app.start_time.getD 0
        else 0
      let uptime_human :=
        if isRun ∧ truthyInt app.start_time then uptimeHuman uptime_seconds
        else "N/A"
      .ok (.found {
        name := app_name,
        version := manifest.version.getD "unknown",
        description := manifest.description.getD "",
        type := manifest.type.getD "service",
        port := manifest.port.getD 0,
        status := if isRun then "running" else "stopped",
        pid := pid,
        health := app.last_health,
        uptime_seconds := uptime_seconds,
        uptime_human := uptime_human })

/-- One application's slice of one `health_monitor_loop` cycle: run the
health check, stamp it with the current time, store it in the record,
then reconcile `start_time` (stamp when newly observed running with no
truthy recorded start time; clear when observed stopped).  A
`PermissionError` out of the probes propagates (and would kill the
monitor thread). -/
def monitor_app_step (w : World) (app_name : String) (rec : AppRecord) :
    Except Unit AppRecord :=
  match check_app_health w app_name with
  | .error e => .error e
  | .ok health =>
    let rec1 := { rec with last_health := { health with last_check := some w.now } }
    match is_running w.sys app_name with
    | .error e => .error e
    | .ok true =>
      if truthyInt rec1.start_time then .ok rec1
      else .ok { rec1 with start_time := some w.now }
    | .ok false => .ok { rec1 with start_time := none }

/-- Lexicographic code-point order on character lists, the order Python
`sorted` applies to filename strings. -/
def charListLe : List Char → List Char → Bool
  | [], _ => true
  | _ :: _, [] => false
  | x :: xs, y :: ys =>
    if x.toNat < y.toNat then true
    else if y.toNat < x.toNat then false
    else charListLe xs ys

/-- Lexicographic order on strings (by code points). -/
def scriptLe (a b : String) : Bool :=
  charListLe a.data b.data

/-- Python `sorted` on the globbed script filenames. -/
def sortScripts (scripts : List String) : List String :=
  scripts.mergeSort scriptLe

/-- One startup script's execution and logging (`run_startup_scripts`
loop body): run with a 60s timeout; non-zero exit logs an error,
timeout logs an error, any other exception logs an error; in every
case the loop moves on. -/
def run_one_startup (script : String) (oc : ScriptOutcome) : List Event :=
  [Event.runScript script 60] ++
  match oc with
  | .exit code =>
    if code ≠ 0 then [Event.log .error ("Startup script failed: " ++ script)]
    else [Event.log .info ("Startup script completed: " ++ script)]
  | .timedOut => [Event.log .error ("Startup script timed out: " ++ script)]
  | .raised msg =>
    [Event.log .error ("Failed to run startup script " ++ script ++ ": " ++ msg)]

/-- `run_startup_scripts`: all `*.sh` scripts of `startup.d`, sorted,
each run in turn regardless of the previous one's outcome. -/
def run_startup_scripts (scripts : List String)
    (oc : String → ScriptOutcome) : List Event :=
  (sortScripts scripts).flatMap (fun s => run_one_startup s (oc s))

/-- One shutdown script's execution and logging (`run_shutdown_scripts`
loop body): run with a 30s timeout; non-zero exit and timeout log
warnings, other exceptions log an error; the loop always moves on. -/
def run_one_shutdown (script : String) (oc : ScriptOutcome) : List Event :=
  [Event.runScript script 30] ++
  match oc with
  | .exit code =>
    if code ≠ 0 then
      [Event.log .warning ("Shutdown script returned non-zero: " ++ script)]
    else []
  | .timedOut => [Event.log .warning ("Shutdown script timed out: " ++ script)]
  | .raised msg =>
    [Event.log .error ("Failed to run shutdown script " ++ script ++ ": " ++ msg)]

/-- `run_shutdown_scripts`: all `*.sh` scripts of `shutdown.d`, sorted,
each run in turn regardless of the previous one's outcome. -/
def run_shutdown_scripts (scripts : List String)
    (oc : String → ScriptOutcome) : List Event :=
  (sortScripts scripts).flatMap (fun s => run_one_shutdown s (oc s))

/-- The manifest-merge step of `main` for one global entry:
`if global_port and not app_manifest.get("port"): ...` and likewise for
`type` — both sides judged by Python truthiness. -/
def merge_manifest (global_port : Int) (global_type : String)
    (app_manifest : Manifest) : Manifest :=
  let m1 :=
    if global_port ≠ 0 ∧ ¬ truthyInt app_manifest.port then
      { app_manifest with port := some global_port }
    else app_manifest
  if global_type ≠ "" ∧ ¬ truthyStr m1.type then
    { m1 with type := some global_type }
  else m1

/-- Does `needle` occur as a contiguous subsequence of `hay`? -/
def containsSeq (hay needle : List Char) : Bool :=
  match hay with
  | [] => needle.isEmpty
  | _ :: xs => needle.isPrefixOf hay || containsSeq xs needle

/-- Python `needle in haystack` substring test. -/
def strContains (haystack needle : String) : Bool :=
  containsSeq haystack.data needle.data

/-- Fuel-driven splitter core: split `rest` at every occurrence of the
(nonempty) separator `sep`; `acc` holds the current piece reversed. -/
def splitSepGo (sep : List Char) : Nat → List Char → List Char → List (List Char)
  | 0, rest, acc => [acc.reverse ++ rest]
  | _ + 1, [], acc => [acc.reverse]
  | fuel + 1, x :: xs, acc =>
    if sep.isPrefixOf (x :: xs) then
      acc.reverse :: splitSepGo sep fuel ((x :: xs).drop sep.length) []
    else
      splitSepGo sep fuel xs (x :: acc)

/-- Python `s.split(sep)` for a nonempty separator: every occurrence
splits, adjacent occurrences produce empty pieces, and the empty string
splits to `[""]`. -/
def splitSep (sep l : List Char) : List (List Char) :=
  splitSepGo sep (l.length + 1) l []

/-- Python `s.split(sep)` on strings. -/
def strSplit (s sep : String) : List String :=
  (splitSep sep.data s.data).map (fun cs => String.mk cs)

/-- Python `s.startswith(p)`. -/
def strStarts (s p : String) : Bool :=
  p.data.isPrefixOf s.data

/-- Python `xs[i]`: `IndexError` (uncaught in the handlers) when out of
range. -/
def pyIndex {α : Type} (xs : List α) (i : Nat) : Except Unit α :=
  match xs.get? i with
  | some x => .ok x
  | none => .error ()

/-- The JSON payload written by one handler branch (the structure of
the dict passed to `send_json`). -/
inductive RespBody where
  | notFound
  | healthOf (h : Health)
  | appsList (l : List StatusResp)
  | statusOf (s : StatusResp)
  | opResult (success : Bool) (s : StatusResp)
deriving DecidableEq, Repr

/-- `UnixSocketHandler.do_GET`: strip the query string, then route on
the path.  Any uncaught exception of the dispatched operation
propagates to `_handle_connection`. -/
def do_GET (w : World) (path : String) : Except Unit (Int × RespBody) :=
  let p := (strSplit path "?").headD ""
  if p = "/apps" then
    match w.reg.mapM (fun e => get_app_status w e.1) with
    | .error e => .error e
    | .ok l => .ok (200, .appsList l)
  else if strStarts p "/apps/" ∧ strContains p "/health" then
    match pyIndex (strSplit p "/") 2 with
    | .error e => .error e
    | .ok app_name =>
      match check_app_health w app_name with
      | .error e => .error e
      | .ok h => .ok (200, .healthOf h)
  else if strStarts p "/apps/" then
    match pyIndex (strSplit p "/") 2 with
    | .error e => .error e
    | .ok app_name =>
      match get_app_status w app_name with
      | .error e => .error e
      | .ok s => .ok (200, .statusOf s)
  else
    .ok (404, .notFound)

/-- `UnixSocketHandler.do_POST`: routes are recognized by *substring*
tests on the raw path (`'/start' in path`, …); the app name is
`path.split('/')[2]`, which raises `IndexError` (propagating out of the
handler) when the path has fewer than three `/`-separated parts. -/
def do_POST (w : World) (path : String) : Except Unit (Int × RespBody) :=
  if strContains path "/start" then
    match pyIndex (strSplit path "/") 2 with
    | .error e => .error e
    | .ok app_name =>
      match start_app w.sys w app_name with
      | .error e => .error e
      | .ok (success, _) =>
        match get_app_status w app_name with
        | .error e => .error e
        | .ok s => .ok (200, .opResult success s)
  else if strContains path "/stop" then
    match pyIndex (strSplit path "/") 2 with
    | .error e => .error e
    | .ok app_name =>
      match stop_app w app_name with
      | .error e => .error e
      | .ok (success, _) =>
        match get_app_status w app_name with
        | .error e => .error e
        | .ok s => .ok (200, .opResult success s)
  else if strContains path "/restart" then
    match pyIndex (strSplit path "/") 2 with
    | .error e => .error e
    | .ok app_name =>
      match restart_app w app_name with
      | .error e => .error e
      | .ok (success, _) =>
        match get_app_status w app_name with
        | .error e => .error e
        | .ok s => .ok (200, .opResult success s)
  else
    .ok (404, .notFound)

/-- What one accepted connection observes from
`UnixSocketHTTPServer._handle_connection`. -/
inductive ConnResult where
  /-- `recv` produced no data; nothing is sent and the socket closes. -/
  | noData
  /-- a handler raised; the exception is caught and logged, `sendall`
  is never reached, and the socket closes with nothing sent. -/
  | exception
  /-- `sendall(wfile.getvalue())` ran: `some` payload when a handler
  wrote a response, `none` when `wfile` was still empty (malformed
  request line or unrecognized method — zero bytes are sent). -/
  | sent (payload : Option (Int × RespBody))
deriving DecidableEq, Repr

/-- `_handle_connection` on the received bytes: parse the first line as
`method path version`; dispatch only `GET` and `POST`; send whatever
the handler wrote; any handler exception is caught (logged) and the
connection is closed without a response. -/
def handle_connection (w : World) (data : String) : ConnResult :=
  if data = "" then .noData
  else
    let request_line := ((strSplit data "\r\n").headD "")
    let parts := strSplit request_line " "
    if parts.length ≥ 2 then
      let command := parts.headD ""
      let path := (parts.get? 1).getD ""
      if command = "GET" then
        match do_GET w path with
        | .ok resp => .sent (some resp)
        | .error _ => .exception
      else if command = "POST" then
        match do_POST w path with
        | .ok resp => .sent (some resp)
        | .error _ => .exception
      else .sent none
    else .sent none

deriving instance DecidableEq for Except

/-- Projection of the run-events (script path and timeout) out of an
event trace. -/
def evtScriptRun : Event → Option (String × Nat)
  | .runScript s t => some (s, t)
  | _ => none

/-- Concrete system state: app "web" has a PID file containing `42` and
process 42 is alive and signalable. -/
def sysRun : SysState :=
  { pidFiles := fun n => if n = "web" then some "42" else none,
    procOf := fun p => if p = 42 then .aliveOk else .dead }

/-- Concrete system state: no PID files, no live processes. -/
def sysDead : SysState :=
  { pidFiles := fun _ => none, procOf := fun _ => .dead }

/-- Concrete system state: the PID file for "web" is still in place but
process 42 has exited. -/
def sysTermDead : SysState :=
  { pidFiles := fun n => if n = "web" then some "42" else none,
    procOf := fun _ => .dead }

/-- Concrete system state: process 42 is alive but not signalable
(signal-0 raises `PermissionError`). -/
def sysPerm : SysState :=
  { pidFiles := fun n => if n = "web" then some "42" else none,
    procOf := fun p => if p = 42 then .aliveNoPerm else .dead }

/-- Concrete system state: the PID file for "web" contains `0`, and the
signal-0 probe of PID 0 succeeds — `os.kill(0, 0)` signals the
supervisor's own process group, which always exists. -/
def sysPidZero : SysState :=
  { pidFiles := fun n => if n = "web" then some "0" else none,
    procOf := fun p => if p = 0 then .aliveOk else .dead }

/-- Concrete health config declaring an `http` check on port 8080. -/
def cfgHttp : HealthConfig := { type := some "http", port := some 8080 }

/-- Concrete runtime record for an app declaring the `http` check. -/
def recHttp : AppRecord :=
  { manifest := { health := some cfgHttp },
    last_health := { status := "unknown" }, start_time := none }

/-- Concrete world: "web" registered and running, no stop script, a
responsive HTTP endpoint. -/
def wRun : World :=
  { reg := [("web", recHttp)],
    sys := sysRun,
    sysAfterTerm := sysTermDead,
    sysAfterStop := sysDead,
    stopScript := fun _ => none,
    startScript := fun _ => some "/app/startup.d/10-web.sh",
    stopScriptOutcome := fun _ => .exit 0,
    startScriptOutcome := fun _ => .exit 0,
    fetch := fun _ => .response 200,
    tcp := fun _ => .connectEx 0,
    elapsedMs := 5,
    now := 1000 }

/-- Concrete world: "web" registered but not running. -/
def wStopped : World := { wRun with sys := sysDead }

/-- Concrete world: "web"'s recorded process is alive but not
signalable. -/
def wPerm : World := { wRun with sys := sysPerm }

/-- Concrete world: "web"'s PID record contains the falsy PID 0 while
the liveness probe still reports the app running. -/
def wPidZero : World := { wRun with sys := sysPidZero }

/-- Concrete per-app manifest that *declares* `port: 0` (a falsy
value). -/
def mPortZero : Manifest := { port := some 0 }

/-- An HTTP probe environment that fails loudly if consulted. -/
def probeRaisedHttp : String → HttpOutcome :=
  fun _ => .raised "probe consulted"

/-- A TCP probe environment that fails loudly if consulted. -/
def probeRaisedTcp : Int → TcpOutcome :=
  fun _ => .raised "probe consulted"

/-! ## Helper lemmas -/

/-- A successful positive `get_pid` means: the PID file exists, parses
to `pid`, and `pid` is alive and signalable. -/
theorem get_pid_eq_some (s : SysState) (app_name : String) (pid : Int)
    (h : get_pid s app_name = .ok (some pid)) :
    ∃ c, s.pidFiles app_name = some c ∧ parsePid c = some pid ∧
      s.procOf pid = .aliveOk := by
  unfold get_pid at h
  cases hf : s.pidFiles app_name with
  | none => simp [hf] at h
  | some c =>
    simp only [hf] at h
    cases hp : parsePid c with
    | none => simp [hp] at h
    | some q =>
      simp only [hp] at h
      unfold os_kill at h
      cases hq : s.procOf q with
      | dead => simp [hq] at h
      | aliveOk =>
        simp only [hq] at h
        simp at h
        exact ⟨c, rfl, h ▸ hp, h ▸ hq⟩
      | aliveNoPerm => simp [hq] at h

/-- A truthy optional number is present. -/
theorem truthyInt_isSome (o : Option Int) (h : truthyInt o = true) :
    o.isSome := by
  cases o with
  | none => simp [truthyInt] at h
  | some n => rfl

/-! ## Claim theorems -/

/-- **C9.** For an application that is not running according to the
PID-record liveness probe (including one never started), `stop_app`
returns success with an empty event trace: no stop script is run, no
signal is sent, nothing sleeps.  `stop_app` writes neither the runtime
record nor any PID file anywhere (its result type carries no record
update), so all state is left unchanged. -/
theorem C9_stop_not_running_noop (w : World) (app_name : String)
    (h : is_running w.sys app_name = .ok false) :
    stop_app w app_name = .ok (true, []) := by
  unfold stop_app
  rw [h]

/-- Witness for C9 at a concrete stopped world. -/
theorem C9_stop_not_running_noop_witness :
    stop_app wStopped "web" = .ok (true, []) :=
  C9_stop_not_running_noop wStopped "web" (by decide)

/-- **C2.** For a registered application whose liveness probe fails,
the health check returns `stopped`, for *every* HTTP-fetch and
TCP-connect environment — i.e. without attempting any TCP connection
or HTTP request — and regardless of the declared check kind (the
record, and hence its health config, is arbitrary). -/
theorem C2_stopped_short_circuit (w : World) (app_name : String)
    (rec : AppRecord)
    (h_reg : regLookup w.reg app_name = some rec)
    (h_run : is_running w.sys app_name = .ok false) :
    ∀ (f : String → HttpOutcome) (t : Int → TcpOutcome) (em : Nat),
      check_app_health { w with fetch := f, tcp := t, elapsedMs := em }
        app_name = .ok { status := "stopped" } := by
  intro f t em
  unfold check_app_health
  have hreg2 : regLookup w.reg app_name = some rec := h_reg
  rw [show ({ w with fetch := f, tcp := t, elapsedMs := em } : World).reg
      = w.reg from rfl, hreg2]
  rw [show ({ w with fetch := f, tcp := t, elapsedMs := em } : World).sys
      = w.sys from rfl, h_run]

/-- Witness for C2 at a concrete stopped world with probe environments
that would report failure if they were ever consulted. -/
theorem C2_stopped_short_circuit_witness :
    check_app_health
      { wStopped with
        fetch := probeRaisedHttp,
        tcp := probeRaisedTcp,
        elapsedMs := 0 }
      "web" = .ok { status := "stopped" } :=
  C2_stopped_short_circuit wStopped "web" recHttp (by decide) (by decide)
    probeRaisedHttp probeRaisedTcp 0

/-- **C10.** When the PID file names a live process that the supervisor
lacks permission to signal, the `PermissionError` of the signal-0 probe
escapes `get_pid` (which catches only `ValueError`,
`ProcessLookupError` and `FileNotFoundError`) and propagates uncaught
through `is_running` into every caller: health checks, status queries,
start and stop. -/
theorem C10_permission_error_propagates (w : World) (app_name : String)
    (rec : AppRecord) (content : String) (pid : Int)
    (h_reg : regLookup w.reg app_name = some rec)
    (h_file : w.sys.pidFiles app_name = some content)
    (h_parse : parsePid content = some pid)
    (h_perm : w.sys.procOf pid = .aliveNoPerm) :
    get_pid w.sys app_name = .error () ∧
    is_running w.sys app_name = .error () ∧
    check_app_health w app_name = .error () ∧
    get_app_status w app_name = .error () ∧
    start_app w.sys w app_name = .error () ∧
    stop_app w app_name = .error () := by
  have hg : get_pid w.sys app_name = .error () := by
    unfold get_pid
    simp only [h_file, h_parse]
    unfold os_kill
    simp only [h_perm]
  have hr : is_running w.sys app_name = .error () := by
    unfold is_running
    rw [hg]
  refine ⟨hg, hr, ?_, ?_, ?_, ?_⟩
  · unfold check_app_health
    rw [h_reg, hr]
  · unfold get_app_status
    rw [h_reg, hg]
  · unfold start_app
    rw [hr]
  · unfold stop_app
    rw [hr]

/-- Witness for C10 at a concrete world whose recorded process is alive
but not signalable. -/
theorem C10_permission_error_propagates_witness :
    get_pid wPerm.sys "web" = .error () ∧
    is_running wPerm.sys "web" = .error () ∧
    check_app_health wPerm "web" = .error () ∧
    get_app_status wPerm "web" = .error () ∧
    start_app wPerm.sys wPerm "web" = .error () ∧
    stop_app wPerm "web" = .error () :=
  C10_permission_error_propagates wPerm "web" recHttp "42" 42
    (by decide) (by decide) (by decide) (by decide)

/-- **C5 counterexample.** The per-application manifest *declares*
`port: 0`, yet the merged descriptor's port is the global entry's 9,
not the declared 0: the merge tests Python truthiness
(`not app_manifest.get("port")`), not key presence, so a declared falsy
value does not win. -/
theorem C5_counterexample :
    mPortZero.port = some 0 ∧
    (merge_manifest 9 "service" mPortZero).port = some 9 ∧
    some (9 : Int) ≠ some (0 : Int) := by
  refine ⟨rfl, ?_, by decide⟩
  decide

/-- **C5 amended.** The merged descriptor takes `port`/`type` from the
per-application manifest when it declares a *truthy* value (non-zero
port, non-empty type); a missing or falsy per-app value is filled from
the global entry only when the global value is itself truthy, and left
unchanged otherwise.  In particular the spec's examples hold: global
port 9 with the per-app port omitted resolves to 9, and a declared
per-app port 10 resolves to 10. -/
theorem C5_merge_truthiness (global_port : Int) (global_type : String)
    (m : Manifest) :
    (merge_manifest global_port global_type m).port =
      (if global_port ≠ 0 ∧ ¬ truthyInt m.port then some global_port
       else m.port) ∧
    (merge_manifest global_port global_type m).type =
      (if global_type ≠ "" ∧ ¬ truthyStr m.type then some global_type
       else m.type) ∧
    (merge_manifest 9 "service" {}).port = some 9 ∧
    (merge_manifest 9 "service" { port := some 10 }).port = some 10 := by
  refine ⟨?_, ?_, by decide, by decide⟩ <;>
    (unfold merge_manifest; dsimp only; split_ifs <;> rfl)

/-- **C6 counterexample.** `POST /start` is not a recognized route, yet
the client receives no structured error payload at all: the substring
test `'/start' in path` matches, `path.split('/')[2]` raises
`IndexError` before anything is written, `_handle_connection` catches
the exception and closes the socket having sent zero bytes.  A
malformed request line ("garbage") likewise gets an empty response
rather than a structured 404 payload. -/
theorem C6_counterexample :
    handle_connection wRun "POST /start HTTP/1.1\r\n\r\n" = .exception ∧
    handle_connection wRun "POST /start HTTP/1.1\r\n\r\n" ≠
      .sent (some (404, RespBody.notFound)) ∧
    handle_connection wRun "garbage\r\n\r\n" = .sent none := by
  refine ⟨by decide, by decide, by decide⟩

/-- **C6 amended.** A parsed POST whose path contains none of the
`/start`, `/stop`, `/restart` substrings receives the structured 404
JSON payload (`{"error": "Not found"}`), and such a request is answered
on the wire; but a POST whose path matches a route substring while
having fewer than three `/`-separated parts raises `IndexError` inside
the handler — `_handle_connection` catches it (the server does not
crash) and closes the connection without writing any response — and a
malformed request line or unrecognized method yields an empty
(zero-byte) response rather than a structured payload. -/
theorem C6_post_unknown_route (w : World) (path : String)
    (h1 : strContains path "/start" = false)
    (h2 : strContains path "/stop" = false)
    (h3 : strContains path "/restart" = false) :
    do_POST w path = .ok (404, RespBody.notFound) ∧
    handle_connection wRun "POST /apps/x/frobnicate HTTP/1.1\r\n\r\n" =
      .sent (some (404, RespBody.notFound)) := by
  constructor
  · unfold do_POST
    rw [h1, h2, h3]
    simp
  · decide

/-- Witness for the amended C6 at a concrete unrecognized route. -/
theorem C6_post_unknown_route_witness :
    do_POST wRun "/apps/x/frobnicate" = .ok (404, RespBody.notFound) :=
  (C6_post_unknown_route wRun "/apps/x/frobnicate"
    (by decide) (by decide) (by decide)).1

/-- **C1.** For a registered application declaring an `http` health
check whose liveness probe succeeds, `check_app_health` returns exactly
the HTTP check's result (so it never raises: the right-hand side is a
total function of the probe outcome).  The HTTP check issues its GET at
`httpUrl` — `http://localhost:<port><endpoint>` with defaults port
8000 / endpoint `/health` — and depends on the fetch environment only
at that URL; the result is `healthy` iff the response status equals the
configured expected status (default 200); a delivered response records
the elapsed time and status code (with a non-empty error message when
the status differs from the expected one); a `URLError` (connection
refused, timeout, or a non-success status raised as `HTTPError`) or any
other exception yields `unhealthy` carrying the error message. -/
theorem C1_http_check_correct (w : World) (app_name : String)
    (rec : AppRecord) (cfg : HealthConfig)
    (h_reg : regLookup w.reg app_name = some rec)
    (h_cfg : rec.manifest.health = some cfg)
    (h_type : cfg.type = some "http")
    (h_run : is_running w.sys app_name = .ok true) :
    check_app_health w app_name
      = .ok (check_health_http cfg w.fetch w.elapsedMs) ∧
    (∀ f f' : String → HttpOutcome, f (httpUrl cfg) = f' (httpUrl cfg) →
      check_health_http cfg f w.elapsedMs
        = check_health_http cfg f' w.elapsedMs) ∧
    ((check_health_http cfg w.fetch w.elapsedMs).status = "healthy" ↔
      w.fetch (httpUrl cfg)
        = .response (cfg.expected_status.getD 200)) ∧
    (∀ sc : Int, w.fetch (httpUrl cfg) = .response sc →
      (check_health_http cfg w.fetch w.elapsedMs).response_time_ms
        = some w.elapsedMs ∧
      (check_health_http cfg w.fetch w.elapsedMs).status_code = some sc ∧
      (sc ≠ cfg.expected_status.getD 200 →
        (check_health_http cfg w.fetch w.elapsedMs).status = "unhealthy" ∧
        (check_health_http cfg w.fetch w.elapsedMs).error.isSome)) ∧
    (∀ r : String, w.fetch (httpUrl cfg) = .urlError r →
      check_health_http cfg w.fetch w.elapsedMs
        = { status := "unhealthy", error := some r }) ∧
    (∀ msg : String, w.fetch (httpUrl cfg) = .raised msg →
      check_health_http cfg w.fetch w.elapsedMs
        = { status := "unhealthy", error := some msg }) := by
  refine ⟨?_, ?_, ?_, ?_, ?_, ?_⟩
  · unfold check_app_health
    rw [h_reg, h_run]
    simp [h_cfg, h_type]
  · intro f f' hff
    unfold check_health_http
    rw [hff]
  · cases hf : w.fetch (httpUrl cfg) with
    | response sc =>
      by_cases hsc : sc = cfg.expected_status.getD 200
      · subst hsc
        simp [check_health_http, hf]
      · simp [check_health_http, hf, hsc]
    | urlError r => simp [check_health_http, hf]
    | raised msg => simp [check_health_http, hf]
  · intro sc hf
    by_cases hsc : sc = cfg.expected_status.getD 200
    · simp [check_health_http, hf, hsc]
    · simp [check_health_http, hf, hsc]
  · intro r hf
    simp [check_health_http, hf]
  · intro msg hf
    simp [check_health_http, hf]

/-- Witness for C1 at a concrete running world whose endpoint answers
200. -/
theorem C1_http_check_correct_witness :
    check_app_health wRun "web"
      = .ok (check_health_http cfgHttp wRun.fetch wRun.elapsedMs) ∧
    ((check_health_http cfgHttp wRun.fetch wRun.elapsedMs).status
      = "healthy" ↔
      wRun.fetch (httpUrl cfgHttp)
        = .response (cfgHttp.expected_status.getD 200)) :=
  ⟨(C1_http_check_correct wRun "web" recHttp cfgHttp (by decide) (by decide)
      (by decide) (by decide)).1,
   (C1_http_check_correct wRun "web" recHttp cfgHttp (by decide) (by decide)
      (by decide) (by decide)).2.2.1⟩

/-- **C3 counterexample.** A PID record containing `0` defeats the
claim: the signal-0 probe of PID 0 succeeds (the supervisor's own
process group), so the liveness probe reports the app running, there is
no stop script — yet `stop_app` returns success with an *empty* event
trace: Python's `if pid:` truthiness guard is falsy at 0, so no
graceful-termination signal is ever sent to the recorded PID. -/
theorem C3_counterexample :
    is_running wPidZero.sys "web" = .ok true ∧
    wPidZero.stopScript "web" = none ∧
    get_pid wPidZero.sys "web" = .ok (some 0) ∧
    stop_app wPidZero "web" = .ok (true, []) := by
  refine ⟨by decide, rfl, by decide, by decide⟩

/-- **C3 amended.** For a running application whose recorded PID is
*truthy* (non-zero) and which has no dedicated stop script, provided
the environment after the grace period keeps the PID file and leaves
the PID either alive-signalable or dead (no permission failure),
`stop_app` sends SIGTERM to the recorded PID, sleeps the fixed
2-second grace period, re-checks liveness, sends SIGKILL exactly when
the process is still alive, and returns success.  (A recorded PID of 0
instead skips the kill block entirely and returns success without
signaling; the excluded permission failure is precisely the
"unexpected error" under which the fallback instead returns
failure.) -/
theorem C3_stop_signal_fallback (w : World) (app_name : String) (pid : Int)
    (h_pid : get_pid w.sys app_name = .ok (some pid))
    (h_nz : pid ≠ 0)
    (h_script : w.stopScript app_name = none)
    (h_file : w.sysAfterTerm.pidFiles app_name = w.sys.pidFiles app_name)
    (h_perm : w.sysAfterTerm.procOf pid ≠ .aliveNoPerm) :
    stop_app w app_name = .ok (true,
      [Event.sendSignal pid "SIGTERM", Event.sleep 2] ++
      (if w.sysAfterTerm.procOf pid = .aliveOk
       then [Event.sendSignal pid "SIGKILL"] else [])) := by
  obtain ⟨c, hf, hp, ha⟩ := get_pid_eq_some w.sys app_name pid h_pid
  have h_run : is_running w.sys app_name = .ok true := by
    unfold is_running
    rw [h_pid]
    rfl
  cases hq : w.sysAfterTerm.procOf pid with
  | aliveNoPerm => exact absurd hq h_perm
  | aliveOk =>
    have h2 : is_running w.sysAfterTerm app_name = .ok true := by
      unfold is_running get_pid
      rw [h_file, hf]
      simp only [hp]
      unfold os_kill
      rw [hq]
      rfl
    simp [stop_app, h_run, h_script, stop_fallback, h_pid, h_nz, os_kill,
      ha, h2, hq]
  | dead =>
    have h2 : is_running w.sysAfterTerm app_name = .ok false := by
      unfold is_running get_pid
      rw [h_file, hf]
      simp only [hp]
      unfold os_kill
      rw [hq]
      rfl
    simp [stop_app, h_run, h_script, stop_fallback, h_pid, h_nz, os_kill,
      ha, h2, hq]

/-- Witness for the amended C3 at a concrete world where the process
exits during the grace period (so no SIGKILL is sent). -/
theorem C3_stop_signal_fallback_witness :
    stop_app wRun "web"
      = .ok (true, [Event.sendSignal 42 "SIGTERM", Event.sleep 2]) := by
  have h := C3_stop_signal_fallback wRun "web" 42 (by decide) (by decide)
    (by decide) (by decide) (by decide)
  simpa using h

/-- **C4.** `start_app` is a no-op success when the application is
already running (it returns success with an *empty* event trace, so no
start script runs and the system state is untouched — calling it again
in the same state returns the same no-op success, and the one live
process stays the only one).  When the application is not running,
with no located start script the result is failure; with a located
script the script is run with the 60-second timeout and success is
exactly "the script exited 0" — the result is a function of the
script's outcome alone, with no verification that the process came
up. -/
theorem C4_start_noop_and_exit_code (w : World) (app_name : String) :
    (is_running w.sys app_name = .ok true →
      start_app w.sys w app_name = .ok (true, [])) ∧
    (is_running w.sys app_name = .ok false →
      w.startScript app_name = none →
      start_app w.sys w app_name = .ok (false, [])) ∧
    (∀ script, is_running w.sys app_name = .ok false →
      w.startScript app_name = some script →
      start_app w.sys w app_name = .ok
        ((match w.startScriptOutcome script with
          | .exit code => decide (code = 0)
          | .timedOut => false
          | .raised _ => false), [Event.runScript script 60]) ∧
      (start_app w.sys w app_name = .ok (true, [Event.runScript script 60])
        ↔ w.startScriptOutcome script = .exit 0)) := by
  refine ⟨?_, ?_, ?_⟩
  · intro h
    simp [start_app, h]
  · intro h hs
    simp [start_app, h, hs]
  · intro script h hs
    constructor
    · cases ho : w.startScriptOutcome script <;>
        simp [start_app, h, hs, ho]
    · cases ho : w.startScriptOutcome script with
      | exit code => simp [start_app, h, hs, ho]
      | timedOut => simp [start_app, h, hs, ho]
      | raised m => simp [start_app, h, hs, ho]

/-- Witness for C4: the running world's start is a no-op success; the
stopped world's start runs the script and succeeds on its exit 0. -/
theorem C4_start_noop_and_exit_code_witness :
    start_app wRun.sys wRun "web" = .ok (true, []) ∧
    start_app wStopped.sys wStopped "web"
      = .ok (true, [Event.runScript "/app/startup.d/10-web.sh" 60]) :=
  ⟨(C4_start_noop_and_exit_code wRun "web").1 (by decide),
   ((C4_start_noop_and_exit_code wStopped "web").2.2 "/app/startup.d/10-web.sh"
      (by decide) (by decide)).2.mpr (by decide)⟩

/-- **C7.** One health-monitor cycle step for an application maps its
runtime record to: the freshly stamped health result, and a
`start_time` that is `some` exactly when the observed liveness check
succeeded — stamped with the current time when the process is newly
observed running (no truthy recorded start time), kept when already
recorded, and cleared when the process is observed stopped.  Hence
every cycle establishes (and so preserves) the invariant
"`start_time` present iff last observed liveness succeeded". -/
theorem C7_monitor_start_time_invariant (w : World) (app_name : String)
    (rec : AppRecord) (b : Bool) (hv : Health)
    (h_run : is_running w.sys app_name = .ok b)
    (h_health : check_app_health w app_name = .ok hv) :
    monitor_app_step w app_name rec = .ok
      { rec with
        last_health := { hv with last_check := some w.now },
        start_time :=
          if b then
            (if truthyInt rec.start_time then rec.start_time else some w.now)
          else none } ∧
    (∀ rec2, monitor_app_step w app_name rec = .ok rec2 →
      (rec2.start_time.isSome ↔ b = true)) := by
  have heq : monitor_app_step w app_name rec = .ok
      { rec with
        last_health := { hv with last_check := some w.now },
        start_time :=
          if b then
            (if truthyInt rec.start_time then rec.start_time else some w.now)
          else none } := by
    cases b with
    | true =>
      by_cases ht : truthyInt rec.start_time <;>
        simp [monitor_app_step, h_health, h_run, ht]
    | false =>
      simp [monitor_app_step, h_health, h_run]
  refine ⟨heq, ?_⟩
  intro rec2 h2
  rw [heq] at h2
  injection h2 with h3
  subst h3
  cases b with
  | true =>
    by_cases ht : truthyInt rec.start_time
    · simp [ht, truthyInt_isSome rec.start_time ht]
    · simp [ht]
  | false => simp

/-- Witness for C7 at the running world: the cycle stamps both the
health result and the start time with the current clock. -/
theorem C7_monitor_start_time_invariant_witness :
    monitor_app_step wRun "web" recHttp = .ok
      { recHttp with
        last_health := { status := "healthy", response_time_ms := some 5,
                         status_code := some 200, last_check := some 1000 },
        start_time := some 1000 } := by
  have h := (C7_monitor_start_time_invariant wRun "web" recHttp true
    { status := "healthy", response_time_ms := some 5,
      status_code := some 200 } (by decide) (by decide)).1
  simpa using h

/-! ## Ordering facts for the script batches (C8) -/

/-- `charListLe` is transitive. -/
theorem charListLe_trans :
    ∀ a b c : List Char, charListLe a b = true → charListLe b c = true →
      charListLe a c = true := by
  intro a
  induction a with
  | nil => intro b c _ _; rfl
  | cons x xs ih =>
    intro b c hab hbc
    cases b with
    | nil => exact absurd hab (by simp [charListLe])
    | cons y ys =>
      cases c with
      | nil => exact absurd hbc (by simp [charListLe])
      | cons z zs =>
        simp only [charListLe] at hab hbc ⊢
        rcases Nat.lt_trichotomy x.toNat y.toNat with h1 | h1 | h1 <;>
          rcases Nat.lt_trichotomy y.toNat z.toNat with h2 | h2 | h2
        · simp [show x.toNat < z.toNat from by omega]
        · simp [show x.toNat < z.toNat from by omega]
        · simp [show ¬ y.toNat < z.toNat from by omega, h2] at hbc
        · simp [show x.toNat < z.toNat from by omega]
        · simp only [show ¬ x.toNat < y.toNat from by omega,
            show ¬ y.toNat < x.toNat from by omega, if_false, ite_false,
            if_neg, reduceIte] at hab
          simp only [show ¬ y.toNat < z.toNat from by omega,
            show ¬ z.toNat < y.toNat from by omega, reduceIte] at hbc
          simp only [show ¬ x.toNat < z.toNat from by omega,
            show ¬ z.toNat < x.toNat from by omega, reduceIte]
          exact ih ys zs hab hbc
        · simp [show ¬ y.toNat < z.toNat from by omega, h2] at hbc
        · simp [show ¬ x.toNat < y.toNat from by omega, h1] at hab
        · simp [show ¬ x.toNat < y.toNat from by omega, h1] at hab
        · simp [show ¬ x.toNat < y.toNat from by omega, h1] at hab

/-- `charListLe` is total. -/
theorem charListLe_total :
    ∀ a b : List Char, (charListLe a b || charListLe b a) = true := by
  intro a
  induction a with
  | nil => intro b; simp [charListLe]
  | cons x xs ih =>
    intro b
    cases b with
    | nil => simp [charListLe]
    | cons y ys =>
      simp only [charListLe]
      rcases Nat.lt_trichotomy x.toNat y.toNat with h | h | h
      · simp [h]
      · simp only [show ¬ x.toNat < y.toNat from by omega,
          show ¬ y.toNat < x.toNat from by omega, reduceIte]
        exact ih ys
      · simp [show ¬ x.toNat < y.toNat from by omega, h]

/-- `scriptLe` is transitive. -/
theorem scriptLe_trans (a b c : String) (h1 : scriptLe a b = true)
    (h2 : scriptLe b c = true) : scriptLe a c = true :=
  charListLe_trans a.data b.data c.data h1 h2

/-- `scriptLe` is total. -/
theorem scriptLe_total (a b : String) :
    (scriptLe a b || scriptLe b a) = true :=
  charListLe_total a.data b.data

/-- A single startup-script run contributes exactly one run-event,
with the 60s timeout, whatever its outcome. -/
theorem run_one_startup_trace (s : String) (oc : ScriptOutcome) :
    (run_one_startup s oc).filterMap evtScriptRun = [(s, 60)] := by
  cases oc with
  | exit code =>
    by_cases h : code = 0 <;> simp [run_one_startup, evtScriptRun, h]
  | timedOut => simp [run_one_startup, evtScriptRun]
  | raised m => simp [run_one_startup, evtScriptRun]

/-- A single shutdown-script run contributes exactly one run-event,
with the 30s timeout, whatever its outcome. -/
theorem run_one_shutdown_trace (s : String) (oc : ScriptOutcome) :
    (run_one_shutdown s oc).filterMap evtScriptRun = [(s, 30)] := by
  cases oc with
  | exit code =>
    by_cases h : code = 0 <;> simp [run_one_shutdown, evtScriptRun, h]
  | timedOut => simp [run_one_shutdown, evtScriptRun]
  | raised m => simp [run_one_shutdown, evtScriptRun]

/-- The run-events of a startup flatMap over any list are exactly one
60s-run per listed script, in order. -/
theorem startup_flatMap_trace (l : List String)
    (oc : String → ScriptOutcome) :
    (l.flatMap (fun s => run_one_startup s (oc s))).filterMap evtScriptRun
      = l.map (fun s => (s, 60)) := by
  induction l with
  | nil => rfl
  | cons a t ih =>
    simp [List.flatMap_cons, List.filterMap_append, run_one_startup_trace,
      ih]

/-- The run-events of `run_startup_scripts` are exactly one 60s-run per
sorted script. -/
theorem startup_batch_trace (l : List String)
    (oc : String → ScriptOutcome) :
    (run_startup_scripts l oc).filterMap evtScriptRun
      = (sortScripts l).map (fun s => (s, 60)) := by
  unfold run_startup_scripts
  exact startup_flatMap_trace (sortScripts l) oc

/-- The run-events of a shutdown flatMap over any list are exactly one
30s-run per listed script, in order. -/
theorem shutdown_flatMap_trace (l : List String)
    (oc : String → ScriptOutcome) :
    (l.flatMap (fun s => run_one_shutdown s (oc s))).filterMap evtScriptRun
      = l.map (fun s => (s, 30)) := by
  induction l with
  | nil => rfl
  | cons a t ih =>
    simp [List.flatMap_cons, List.filterMap_append, run_one_shutdown_trace,
      ih]

/-- The run-events of `run_shutdown_scripts` are exactly one 30s-run per
sorted script. -/
theorem shutdown_batch_trace (l : List String)
    (oc : String → ScriptOutcome) :
    (run_shutdown_scripts l oc).filterMap evtScriptRun
      = (sortScripts l).map (fun s => (s, 30)) := by
  unfold run_shutdown_scripts
  exact shutdown_flatMap_trace (sortScripts l) oc

/-- **C8.** Both script batches execute every script of the batch: the
executed trace is exactly one run per script with the bounded timeout
(60s startup, 30s shutdown), over the lexicographically sorted file
list — and the executed trace is *independent of the outcomes*, so a
script's non-zero exit, timeout or exception never prevents any
subsequent script from running.  The sorted list is ordered under the
lexicographic order and is a permutation of the input batch. -/
theorem C8_script_batches (scripts : List String)
    (oc oc2 : String → ScriptOutcome) :
    (run_startup_scripts scripts oc).filterMap evtScriptRun
      = (sortScripts scripts).map (fun s => (s, 60)) ∧
    (run_shutdown_scripts scripts oc).filterMap evtScriptRun
      = (sortScripts scripts).map (fun s => (s, 30)) ∧
    (run_startup_scripts scripts oc).filterMap evtScriptRun
      = (run_startup_scripts scripts oc2).filterMap evtScriptRun ∧
    (run_shutdown_scripts scripts oc).filterMap evtScriptRun
      = (run_shutdown_scripts scripts oc2).filterMap evtScriptRun ∧
    List.Pairwise (fun a b => scriptLe a b = true) (sortScripts scripts) ∧
    (sortScripts scripts).Perm scripts := by
  refine ⟨startup_batch_trace _ oc, shutdown_batch_trace _ oc, ?_, ?_, ?_, ?_⟩
  · rw [startup_batch_trace _ oc, startup_batch_trace _ oc2]
  · rw [shutdown_batch_trace _ oc, shutdown_batch_trace _ oc2]
  · exact List.sorted_mergeSort
      (fun a b c => scriptLe_trans a b c) scriptLe_total scripts
  · exact List.mergeSort_perm scripts scriptLe

end AppManager
